import Mathlib

/-!
Verification of the os-vif plugin library against its specification.

The development shallowly embeds the three source modules:

* `OsVif`     — `os_vif/__init__.py`: the plugin registry and the
  top-level lifecycle dispatcher (`initialize`, `plug`).
* `OvsHybrid` — `vif_plug_ovs/ovs_hybrid.py`: the hybrid
  bridge-plus-OVS backend (`get_veth_pair_names`, `plug`, `unplug`).
* `LinuxNet`  — `vif_plug_linux_bridge/linux_net.py`: the linux-bridge
  network-device orchestrator (`ensure_vlan`, `ensure_bridge`,
  `_set_device_mtu`, `_ip_bridge_cmd`).

Side-effecting Python code is embedded as pure functions that return the
ordered list of external commands they would execute (the trace) together
with a normal result or a raised exception (`Except`).  Host facts the
code reads (device existence probes, command stdout/stderr) are explicit
parameters.  A small-step semantics over traces (`LinuxNet.applyEv`)
models how the kernel state of the attached interface and the bridge
evolves under the executed `ip addr` / `ip route` commands.
-/

/-- One external command execution: the argv vector passed to
`processutils.execute`, plus the optional `process_input` payload piped to
its stdin.  `run_as_root` and `check_exit_code` are not modelled: no claim
depends on them. -/
structure Cmd where
  argv : List String
  process_input : Option String := none
deriving DecidableEq, Repr

/-- A plain command with no stdin payload. -/
def run (argv : List String) : Cmd := { argv := argv }

/-- Python `str(x)` for an optional integer argument: `processutils.execute`
stringifies every argv element, so `None` is rendered as the literal string
"None". -/
def pyStrOptNat : Option Nat → String
  | none => "None"
  | some n => toString n

/-- Python truthiness of an optional string (`if mac_address:`):
false for `None` and for the empty string. -/
def pyTruthy : Option String → Bool
  | none => false
  | some s => s ≠ ""

/-- Split a character list at every separator matched by `p`.  Empty
pieces are kept (adjacent separators yield an empty piece), mirroring
Python `str.split(sep)` with an explicit separator. -/
def splitWhen (p : Char → Bool) : List Char → List (List Char)
  | [] => [[]]
  | c :: rest =>
    let r := splitWhen p rest
    if p c then [] :: r
    else (c :: r.headD []) :: r.tail

/-- Python `line.split()`: split on whitespace, discarding empty pieces. -/
def pySplitWs (line : String) : List String :=
  (((splitWhen (fun c => c == ' ' || c == '\t') line.data).map
      String.mk).filter (fun s => s ≠ ""))

/-- Python `out.split('\n')` followed by `line.split()` on each line. -/
def tokenizedLines (out : String) : List (List String) :=
  (((splitWhen (fun c => c == '\n') out.data).map String.mk).map pySplitWs)

namespace OsVif

/-- The fields of `os_vif.objects.vif.VIF` that the dispatcher reads:
`vif.plugin` names the backend that must handle this VIF. -/
structure VIF where
  plugin : String
deriving DecidableEq, Repr

/-- The owning instance (`os_vif.objects.instance_info.InstanceInfo`). -/
structure InstanceInfo where
  uuid : String
deriving DecidableEq, Repr

/-- A loaded backend instance.  Its `plug` either succeeds or raises an
internal exception, abstracted as a message string. -/
structure Plugin where
  plugOp : VIF → InstanceInfo → Except String Unit

/-- A discovered backend class; `load name` instantiates it
(`cls.load(plugin_name)` in the source). -/
structure PluginClass where
  load : String → Plugin

/-- The stevedore `ExtensionManager` contents after loading: the ordered
name-to-instance bindings. -/
abbrev ExtManager := List (String × Plugin)

/-- `_EXT_MANAGER[plugin_name].obj`: look a backend up by name. -/
def lookupExt : ExtManager → String → Option Plugin
  | [], _ => none
  | (n, p) :: rest, name => if n = name then some p else lookupExt rest name

/-- The observable side effects of `initialize`: running plugin discovery,
loading one plugin, and registering the versioned VIF object models. -/
inductive InitAction
  | discoverExtensions
  | loadPlugin (name : String)
  | registerAllObjects
deriving DecidableEq, Repr

/-- Instantiating every discovered plugin class
(the `for plugin_name in _EXT_MANAGER.names()` loop). -/
def buildManager (discovered : List (String × PluginClass)) : ExtManager :=
  discovered.map (fun nc => (nc.1, nc.2.load nc.1))

/-- The actions the rebuild branch of `initialize` performs. -/
def initActions (discovered : List (String × PluginClass)) : List InitAction :=
  InitAction.discoverExtensions
    :: (discovered.map (fun nc => InitAction.loadPlugin nc.1)
        ++ [InitAction.registerAllObjects])

/-- `os_vif.initialize(reset=False)`.  The module global `_EXT_MANAGER` is
threaded explicitly; `discovered` is what stevedore discovery would find.
Returns the new value of the global plus the actions performed. -/
def initializeRegistry (mgr : Option ExtManager) (reset : Bool)
    (discovered : List (String × PluginClass)) :
    Option ExtManager × List InitAction :=
  if reset || mgr.isNone then
    (some (buildManager discovered), initActions discovered)
  else
    (mgr, [])

/-- The outward-facing error taxonomy of the dispatcher. -/
inductive OsVifErr
  | libraryNotInitialized
  | noMatchingPlugin (plugin_name : String)
  | plugException (vif : VIF) (err : String)

/-- `os_vif.plug(vif, instance_info)` with the module global `_EXT_MANAGER`
threaded explicitly. -/
def plug (mgr : Option ExtManager) (vif : VIF) (ii : InstanceInfo) :
    Except OsVifErr Unit :=
  match mgr with
  | none => .error .libraryNotInitialized
  | some m =>
    match lookupExt m vif.plugin with
    | none => .error (.noMatchingPlugin vif.plugin)
    | some p =>
      match p.plugOp vif ii with
      | .ok _ => .ok ()
      | .error err => .error (.plugException vif err)

end OsVif

namespace OvsHybrid

/-- The closed set of port-profile variants a VIF may carry, as the hybrid
backend distinguishes them: the `VIFPortProfileOpenVSwitch` variant it
understands (carrying the OVS interface id), or any other profile class,
identified by its class name (`__class__.__name__`). -/
inductive PortProfile
  | openVSwitch (interface_id : String)
  | otherClass (className : String)
deriving DecidableEq, Repr

/-- The fields of the VIF object that `OvsHybridPlugin` reads.  A Python
object may lack the `port_profile` attribute entirely (`hasattr` check);
`none` models that absent attribute. -/
structure VIF where
  id : String
  address : String
  bridge_name : String
  port_profile : Option PortProfile
  network_bridge : String
deriving DecidableEq, Repr

structure InstanceInfo where
  uuid : String
deriving DecidableEq, Repr

/-- The two resolved configuration options of the backend. -/
structure Config where
  network_device_mtu : Nat
  ovs_vsctl_timeout : Nat
deriving DecidableEq, Repr

/-- The backend-internal exceptions of `vif_plug_ovs.exception`. -/
inductive Err
  | missingPortProfile
  | wrongPortProfile (profile : String)
deriving DecidableEq, Repr

/-- The host mutations `plug`/`unplug` perform: direct command executions,
plus the two `vif_plug_ovs.linux_net` helpers that are external to this
repository (modelled abstractly, see below). -/
inductive Ev
  | exec (c : Cmd)
  | createVethPair (dev1 dev2 : String) (mtu : Nat)
  | createOvsVifPort (ovsBridge dev iface_id mac instanceId : String)
      (mtu timeout : Nat)
  | deleteOvsVifPort (ovsBridge dev : String) (timeout : Nat)
deriving DecidableEq, Repr

/-- `OvsHybridPlugin.NIC_NAME_LEN`. -/
def NIC_NAME_LEN : Nat := 14

/-- `OvsHybridPlugin.get_veth_pair_names`: derive the bridge-side (`qvb`)
and OVS-side (`qvo`) veth device names from the VIF id, truncated to
`NIC_NAME_LEN` characters. -/
def get_veth_pair_names (vif : VIF) : String × String :=
  (("qvb" ++ vif.id).take NIC_NAME_LEN,
   ("qvo" ++ vif.id).take NIC_NAME_LEN)

/-- The `/sys` path whose content controls multicast snooping on a bridge. -/
def snoopPath (bridge : String) : String :=
  "/sys/class/net/" ++ bridge ++ "/bridge/multicast_snooping"

/-- The `/proc` path whose content disables IPv6 on a bridge; it exists only
when the host kernel supports IPv6. -/
def disv6Path (bridge : String) : String :=
  "/proc/sys/net/ipv6/conf/" ++ bridge ++ "/disable_ipv6"

/-- The host facts `plug` probes: whether the per-VIF bridge device, the
OVS-side veth device, and the `disable_ipv6` proc path exist. -/
structure HostProbe where
  bridgeDeviceExists : Bool
  v2DeviceExists : Bool
  disv6PathExists : Bool
deriving DecidableEq, Repr

/-- The `if not linux_net.device_exists(vif.bridge_name)` block of `plug`:
create the per-VIF bridge, set forward delay 0, disable STP, disable
multicast snooping, and disable IPv6 when the host supports it. -/
def bridgeCreateEvs (bridge : String) (disv6PathExists : Bool) : List Ev :=
  [Ev.exec (run ["brctl", "addbr", bridge]),
   Ev.exec (run ["brctl", "setfd", bridge, "0"]),
   Ev.exec (run ["brctl", "stp", bridge, "off"]),
   Ev.exec { argv := ["tee", snoopPath bridge], process_input := some "0" }]
  ++ (if disv6PathExists then
        [Ev.exec { argv := ["tee", disv6Path bridge],
                   process_input := some "1" }]
      else [])

/-- The `if not linux_net.device_exists(v2_name)` block of `plug`: create
the veth pair, bring the per-VIF bridge up, attach the bridge-side end, and
create the OVS port on the integration bridge.  `create_veth_pair` and
`create_ovs_vif_port` live in `vif_plug_ovs/linux_net.py`, which is not part
of this repository snapshot; they are modelled from the spec as the abstract
events carrying exactly the arguments the call site passes. -/
def vethCreateEvs (vif : VIF) (ii : InstanceInfo) (cfg : Config)
    (v1 v2 iface_id : String) : List Ev :=
  [Ev.createVethPair v1 v2 cfg.network_device_mtu,
   Ev.exec (run ["ip", "link", "set", vif.bridge_name, "up"]),
   Ev.exec (run ["brctl", "addif", vif.bridge_name, v1]),
   Ev.createOvsVifPort vif.network_bridge v2 iface_id vif.address ii.uuid
     cfg.network_device_mtu cfg.ovs_vsctl_timeout]

/-- `OvsHybridPlugin.plug`: port-profile validation, then the two
existence-guarded blocks.  Returns the event trace plus the outcome. -/
def plug (vif : VIF) (ii : InstanceInfo) (cfg : Config) (h : HostProbe) :
    List Ev × Except Err Unit :=
  match vif.port_profile with
  | none => ([], .error .missingPortProfile)
  | some (.otherClass cls) => ([], .error (.wrongPortProfile cls))
  | some (.openVSwitch iface_id) =>
    let names := get_veth_pair_names vif
    let t1 := if h.bridgeDeviceExists then []
              else bridgeCreateEvs vif.bridge_name h.disv6PathExists
    let t2 := if h.v2DeviceExists then []
              else vethCreateEvs vif ii cfg names.1 names.2 iface_id
    (t1 ++ t2, .ok ())

/-- `OvsHybridPlugin.unplug`: port-profile validation, then teardown of the
bridge when it exists, then deletion of the OVS port
(`delete_ovs_vif_port`, modelled from the spec like the other two
`vif_plug_ovs/linux_net.py` helpers). -/
def unplug (vif : VIF) (cfg : Config) (bridgeDeviceExists : Bool) :
    List Ev × Except Err Unit :=
  match vif.port_profile with
  | none => ([], .error .missingPortProfile)
  | some (.otherClass cls) => ([], .error (.wrongPortProfile cls))
  | some (.openVSwitch _) =>
    let names := get_veth_pair_names vif
    let t1 := if bridgeDeviceExists then
        [Ev.exec (run ["brctl", "delif", vif.bridge_name, names.1]),
         Ev.exec (run ["ip", "link", "set", vif.bridge_name, "down"]),
         Ev.exec (run ["brctl", "delbr", vif.bridge_name])]
      else []
    (t1 ++ [Ev.deleteOvsVifPort vif.network_bridge names.2
              cfg.ovs_vsctl_timeout], .ok ())

end OvsHybrid

namespace LinuxNet

/-- The host mutations `linux_net` performs: command executions plus the
three operations on the externally supplied iptables manager
(`add_rule` on the ipv4 filter table, and `apply`). -/
inductive Ev
  | exec (c : Cmd)
  | addRule (chain rule : String)
  | applyRules
deriving DecidableEq, Repr

/-- The linux-bridge module's failure modes that the claims touch:
the `Exception` raised when `brctl addif` reports an unexpected error,
and the `AttributeError` Python raises when the filtering stage reads the
unconfigured (`None`) module-global iptables manager. -/
inductive Err
  | failedToAddInterface (err : String)
  | noneManagerAttributeError
deriving DecidableEq, Repr

/-- The externally supplied iptables manager
(`linux_net.configure(iptables_mgr)` collaborator): what
`get_gateway_rules(bridge)` returns (chain/rule pairs) and the
`iptables_drop_action` attribute. -/
structure IptablesMgr where
  gateway_rules : String → List (String × String)
  iptables_drop_action : String

/-- `linux_net._set_device_mtu(dev, mtu)`: always issues the `ip link set
... mtu ...` command; a `None` mtu is stringified into the argv. -/
def _set_device_mtu (dev : String) (mtu : Option Nat) : Ev :=
  Ev.exec (run ["ip", "link", "set", dev, "mtu", pyStrOptNat mtu])

/-- `linux_net._ip_bridge_cmd(action, params, device)`. -/
def _ip_bridge_cmd (action : String) (params : List String)
    (device : String) : List String :=
  ["ip", "addr", action] ++ params ++ ["dev", device]

/-- `linux_net.ensure_vlan(vlan_num, bridge_interface, mac_address, mtu)`:
the interface name is derived from the vlan id; creation, optional
MAC-setting, and link-up run only when the device is missing; the MTU is
re-applied on every call.  `dexists` is the `device_exists(interface)`
probe result.  Returns the trace and the interface name. -/
def ensure_vlan (vlan_num : Nat) (bridge_interface : String)
    (mac_address : Option String) (mtu : Option Nat) (dexists : Bool) :
    List Ev × String :=
  let interface := "vlan" ++ toString vlan_num
  let creation : List Ev :=
    if dexists then []
    else
      [Ev.exec (run ["ip", "link", "add", "link", bridge_interface,
                     "name", interface, "type", "vlan", "id",
                     toString vlan_num])]
      ++ (if pyTruthy mac_address then
            [Ev.exec (run ["ip", "link", "set", interface, "address",
                           mac_address.getD ""])]
          else [])
      ++ [Ev.exec (run ["ip", "link", "set", interface, "up"])]
  (creation ++ [_set_device_mtu interface mtu], interface)

/-- The exact tolerated stderr of `brctl addif`: the interface is already a
member of a bridge (`\x27` is the apostrophe). -/
def enslaveMsg (interface bridge : String) : String :=
  "device " ++ interface ++
    " is already a member of a bridge; can\x27t enslave it to bridge " ++
    bridge ++ ".\n"

/-- The `if not device_exists(bridge)` block of `ensure_bridge`: create the
bridge, set forward delay 0, disable STP, bring it up. -/
def bridgeCreateEvs (bridge : String) (bridgeExists : Bool) : List Ev :=
  if bridgeExists then []
  else
    [Ev.exec (run ["brctl", "addbr", bridge]),
     Ev.exec (run ["brctl", "setfd", bridge, "0"]),
     Ev.exec (run ["brctl", "stp", bridge, "off"]),
     Ev.exec (run ["ip", "link", "set", bridge, "up"])]

/-- The route lines `ensure_bridge` records and deletes: lines of
`ip route show dev <interface>` output that are non-empty and contain a
`via` token. -/
def oldRoutesOf (routeOut : String) : List (List String) :=
  (tokenizedLines routeOut).filter
    (fun fields => decide (fields ≠ [] ∧ "via" ∈ fields))

/-- The address lines `ensure_bridge` migrates: lines of
`ip addr show dev <interface> scope global` output whose first token is
`inet`. -/
def inetLinesOf (addrOut : String) : List (List String) :=
  (tokenizedLines addrOut).filter
    (fun fields => decide (fields ≠ [] ∧ fields.headD "" = "inet"))

/-- Python `fields[-1]` of an address line: the trailing device label. -/
def deviceOf (fields : List String) : String := fields.getLastD ""

/-- Python `fields[-2]` of an address line. -/
def penultOf (fields : List String) : String :=
  fields.dropLast.getLastD ""

/-- The parameter slice of one address line: `fields[1:-2]` when the
second-to-last token is `secondary`/`dynamic`, else `fields[1:-1]`. -/
def paramsOf (fields : List String) : List String :=
  if penultOf fields = "secondary" ∨ penultOf fields = "dynamic" then
    ((fields.drop 1).dropLast).dropLast
  else
    (fields.drop 1).dropLast

/-- The `ip route del` commands for the recorded routes, in order. -/
def routeDelEvs (old_routes : List (List String)) : List Ev :=
  old_routes.map (fun fields => Ev.exec (run (["ip", "route", "del"] ++ fields)))

/-- The `ip route add` commands re-adding the recorded routes, in order. -/
def routeAddEvs (old_routes : List (List String)) : List Ev :=
  old_routes.map (fun fields => Ev.exec (run (["ip", "route", "add"] ++ fields)))

/-- The address-migration commands: for each `inet` line, delete the
parameter slice from the device named at the end of the line, then add it
to the bridge. -/
def addrMoveEvs (bridge : String) : List (List String) → List Ev
  | [] => []
  | fields :: rest =>
    Ev.exec (run (_ip_bridge_cmd "del" (paramsOf fields) (deviceOf fields)))
      :: Ev.exec (run (_ip_bridge_cmd "add" (paramsOf fields) bridge))
      :: addrMoveEvs bridge rest

/-- The `if interface:` block of `ensure_bridge`: attach the interface
(tolerating only the already-enslaved stderr), bring it up, record and
delete the via-routes, move the global-scope addresses to the bridge, and
re-add the recorded routes.  `addifErr` is the stderr of `brctl addif`. -/
def attachEvs (bridge interface : String) (addifErr : String)
    (routeOut addrOut : String) : List Ev × Except Err Unit :=
  let tAddif := [Ev.exec (run ["brctl", "addif", bridge, interface])]
  if addifErr ≠ "" ∧ addifErr ≠ enslaveMsg interface bridge then
    (tAddif, .error (.failedToAddInterface addifErr))
  else
    (tAddif
      ++ [Ev.exec (run ["ip", "link", "set", interface, "up"]),
          Ev.exec (run ["ip", "route", "show", "dev", interface])]
      ++ routeDelEvs (oldRoutesOf routeOut)
      ++ [Ev.exec (run ["ip", "addr", "show", "dev", interface,
                        "scope", "global"])]
      ++ addrMoveEvs bridge (inetLinesOf addrOut)
      ++ routeAddEvs (oldRoutesOf routeOut), .ok ())

/-- The `if filtering:` block of `ensure_bridge` when the manager is
configured: gateway rules, or the two drop rules, then one apply. -/
def filteringEvs (bridge : String) (m : IptablesMgr) (gateway : Bool) :
    List Ev :=
  (if gateway then
     (m.gateway_rules bridge).map (fun r => Ev.addRule r.1 r.2)
   else
     [Ev.addRule "FORWARD"
        ("--in-interface " ++ bridge ++ " -j " ++ m.iptables_drop_action),
      Ev.addRule "FORWARD"
        ("--out-interface " ++ bridge ++ " -j " ++ m.iptables_drop_action)])
  ++ [Ev.applyRules]

/-- `linux_net.ensure_bridge(bridge, interface, net_attrs, gateway,
filtering)`.  `net_attrs` is unused by the source body and omitted.
Host inputs: the `device_exists(bridge)` probe, the stderr of
`brctl addif`, and the stdout of the two `ip ... show` commands.  `mgr` is
the module-global `_IPTABLES_MANAGER` (set by `configure`, `none` when
never configured). -/
def ensure_bridge (bridge interface : String) (bridgeExists : Bool)
    (addifErr : String) (routeOut addrOut : String)
    (mgr : Option IptablesMgr) (gateway filtering : Bool) :
    List Ev × Except Err Unit :=
  let t1 := bridgeCreateEvs bridge bridgeExists
  let attach :=
    if interface = "" then ([], Except.ok ())
    else attachEvs bridge interface addifErr routeOut addrOut
  match attach.2 with
  | .error e => (t1 ++ attach.1, .error e)
  | .ok _ =>
    if filtering then
      match mgr with
      | none => (t1 ++ attach.1, .error .noneManagerAttributeError)
      | some m => (t1 ++ attach.1 ++ filteringEvs bridge m gateway, .ok ())
    else (t1 ++ attach.1, .ok ())

end LinuxNet

namespace LinuxNet

/-- Parse a decimal numeral from characters. -/
def digitsToNat : List Char → Option Nat
  | [] => none
  | cs =>
    cs.foldl
      (fun acc c =>
        match acc with
        | none => none
        | some n => if c.isDigit then some (n * 10 + (c.toNat - 48)) else none)
      (some 0)

/-- Parse a dotted-quad IPv4 address into its 32-bit value. -/
def parseIPv4 (s : String) : Option Nat :=
  match splitWhen (fun c => c == '.') s.data with
  | [a, b, c, d] =>
    match digitsToNat a, digitsToNat b, digitsToNat c, digitsToNat d with
    | some a, some b, some c, some d =>
      if a < 256 ∧ b < 256 ∧ c < 256 ∧ d < 256 then
        some (((a * 256 + b) * 256 + c) * 256 + d)
      else none
    | _, _, _, _ => none
  | _ => none

/-- Parse `a.b.c.d/p` CIDR notation into (address, prefix length). -/
def parseCIDR (s : String) : Option (Nat × Nat) :=
  match splitWhen (fun c => c == '/') s.data with
  | [ip, pre] =>
    match parseIPv4 (String.mk ip), digitsToNat pre with
    | some i, some p => some (i, p)
    | _, _ => none
  | _ => none

/-- Whether one of the address parameter slices (whose first token is the
CIDR) covers the gateway address: both fall in the same prefix. -/
def coversGw (addrs : List (List String)) (gw : String) : Bool :=
  addrs.any (fun params =>
    match parseCIDR (params.headD ""), parseIPv4 gw with
    | some (ip, pre), some g =>
      (ip >>> (32 - pre)) == (g >>> (32 - pre))
    | _, _ => false)

/-- The token following `via` in a route line. -/
def viaGateway : List String → String
  | [] => ""
  | "via" :: g :: _ => g
  | _ :: rest => viaGateway rest

/-- The kernel-visible networking state of the attached interface and the
bridge that `ensure_bridge` migrates between: the address parameter slices
and the (deviceless) route field lines each device carries. -/
structure NetState where
  ifaceAddrs : List (List String)
  bridgeAddrs : List (List String)
  ifaceRoutes : List (List String)
  bridgeRoutes : List (List String)
deriving DecidableEq, Repr

/-- Modelled kernel behavior for the commands `ensure_bridge` issues:
`ip addr del`/`add` remove/append the parameter slice on the named device;
`ip route del` removes the matching route wherever it is; `ip route add`
(the re-add carries no `dev` operand) binds the route to a device whose
address covers the `via` gateway, the interface first, else the bridge,
else the command fails and changes nothing.  All other commands do not
change this state. -/
def applyEv (iface bridge : String) (st : NetState) (e : Ev) : NetState :=
  match e with
  | .exec c =>
    match c.argv with
    | "ip" :: "route" :: "del" :: fields =>
      { st with ifaceRoutes := st.ifaceRoutes.filter (fun r => r ≠ fields),
                bridgeRoutes := st.bridgeRoutes.filter (fun r => r ≠ fields) }
    | "ip" :: "route" :: "add" :: fields =>
      if coversGw st.ifaceAddrs (viaGateway fields) then
        { st with ifaceRoutes := st.ifaceRoutes ++ [fields] }
      else if coversGw st.bridgeAddrs (viaGateway fields) then
        { st with bridgeRoutes := st.bridgeRoutes ++ [fields] }
      else st
    | "ip" :: "addr" :: "del" :: rest =>
      let dev := rest.getLastD ""
      let params := rest.dropLast.dropLast
      if dev = iface then
        { st with ifaceAddrs := st.ifaceAddrs.filter (fun p => p ≠ params) }
      else if dev = bridge then
        { st with bridgeAddrs := st.bridgeAddrs.filter (fun p => p ≠ params) }
      else st
    | "ip" :: "addr" :: "add" :: rest =>
      let dev := rest.getLastD ""
      let params := rest.dropLast.dropLast
      if dev = iface then
        { st with ifaceAddrs := st.ifaceAddrs ++ [params] }
      else if dev = bridge then
        { st with bridgeAddrs := st.bridgeAddrs ++ [params] }
      else st
    | _ => st
  | _ => st

/-- Run a trace of events through the kernel-state model. -/
def applyTrace (iface bridge : String) (st : NetState) (evs : List Ev) :
    NetState :=
  evs.foldl (applyEv iface bridge) st

end LinuxNet

/-- C8: `initialize` is safe to call repeatedly: after a successful
initialization, a call with `reset=false` leaves the registry unchanged and
performs no discovery, instantiation, or registration actions, while a call
with `reset=true` discards the current registry and rebuilds all entries
from discovery. -/
theorem os_vif_initialize_repeat_safe
    (m : OsVif.ExtManager) (st : Option OsVif.ExtManager)
    (discovered : List (String × OsVif.PluginClass)) :
    OsVif.initializeRegistry (some m) false discovered = (some m, []) ∧
    OsVif.initializeRegistry st true discovered
      = (some (OsVif.buildManager discovered), OsVif.initActions discovered) := by
  constructor <;> simp [OsVif.initializeRegistry]

/-- C2: `plug` before `initialize` fails with exactly
`LibraryNotInitialized`; `plug` with an unregistered backend name fails
with exactly `NoMatchingPlugin` naming that backend; and a backend raising
any internal error during `plug` surfaces as exactly `PlugException`
carrying the VIF and that cause. -/
theorem os_vif_plug_error_taxonomy (vif : OsVif.VIF) (ii : OsVif.InstanceInfo) :
    OsVif.plug none vif ii = .error .libraryNotInitialized ∧
    (∀ m, OsVif.lookupExt m vif.plugin = none →
      OsVif.plug (some m) vif ii = .error (.noMatchingPlugin vif.plugin)) ∧
    (∀ m p e, OsVif.lookupExt m vif.plugin = some p →
      p.plugOp vif ii = .error e →
      OsVif.plug (some m) vif ii = .error (.plugException vif e)) := by
  refine ⟨rfl, ?_, ?_⟩
  · intro m hm
    simp [OsVif.plug, hm]
  · intro m p e hm hp
    simp [OsVif.plug, hm, hp]

/-- Witness for C2 at concrete inputs: an uninitialized registry, an empty
registry, and a registry whose only backend raises "boom". -/
theorem os_vif_plug_error_taxonomy_witness :
    OsVif.plug none ⟨"x"⟩ ⟨"u"⟩ = .error .libraryNotInitialized ∧
    OsVif.plug (some []) ⟨"x"⟩ ⟨"u"⟩ = .error (.noMatchingPlugin "x") ∧
    OsVif.plug (some [("x", ⟨fun _ _ => Except.error "boom"⟩)]) ⟨"x"⟩ ⟨"u"⟩
      = .error (.plugException ⟨"x"⟩ "boom") := by
  refine ⟨(os_vif_plug_error_taxonomy ⟨"x"⟩ ⟨"u"⟩).1,
          (os_vif_plug_error_taxonomy ⟨"x"⟩ ⟨"u"⟩).2.1 [] rfl,
          (os_vif_plug_error_taxonomy ⟨"x"⟩ ⟨"u"⟩).2.2
            [("x", ⟨fun _ _ => Except.error "boom"⟩)]
            ⟨fun _ _ => Except.error "boom"⟩ "boom" ?_ rfl⟩
  simp [OsVif.lookupExt]

/-- C4: a VIF lacking a port profile, or carrying a non-OpenVSwitch
variant, makes both `plug` and `unplug` of the hybrid backend raise
`MissingPortProfile` / `WrongPortProfile` with an empty event trace: no
host-mutating command is issued, so host state is unchanged. -/
theorem ovs_hybrid_port_profile_fail_fast
    (vif : OvsHybrid.VIF) (ii : OvsHybrid.InstanceInfo)
    (cfg : OvsHybrid.Config) (h : OvsHybrid.HostProbe) (be : Bool) :
    (vif.port_profile = none →
      OvsHybrid.plug vif ii cfg h = ([], .error .missingPortProfile) ∧
      OvsHybrid.unplug vif cfg be = ([], .error .missingPortProfile)) ∧
    (∀ cls, vif.port_profile = some (.otherClass cls) →
      OvsHybrid.plug vif ii cfg h = ([], .error (.wrongPortProfile cls)) ∧
      OvsHybrid.unplug vif cfg be = ([], .error (.wrongPortProfile cls))) := by
  constructor
  · intro hpp
    constructor <;> simp [OvsHybrid.plug, OvsHybrid.unplug, hpp]
  · intro cls hpp
    constructor <;> simp [OvsHybrid.plug, OvsHybrid.unplug, hpp]

/-- Witness for C4 at concrete inputs: one VIF with the attribute absent,
one carrying a `VIFPortProfile8021Qbg` profile. -/
theorem ovs_hybrid_port_profile_fail_fast_witness :
    OvsHybrid.plug ⟨"i", "m", "qbr", none, "br-int"⟩ ⟨"u"⟩ ⟨1500, 120⟩
        ⟨false, false, false⟩ = ([], .error .missingPortProfile) ∧
    OvsHybrid.unplug
        ⟨"i", "m", "qbr", some (.otherClass "VIFPortProfile8021Qbg"), "br-int"⟩
        ⟨1500, 120⟩ true
      = ([], .error (.wrongPortProfile "VIFPortProfile8021Qbg")) :=
  ⟨((ovs_hybrid_port_profile_fail_fast ⟨"i", "m", "qbr", none, "br-int"⟩
      ⟨"u"⟩ ⟨1500, 120⟩ ⟨false, false, false⟩ true).1 rfl).1,
   ((ovs_hybrid_port_profile_fail_fast
      ⟨"i", "m", "qbr", some (.otherClass "VIFPortProfile8021Qbg"), "br-int"⟩
      ⟨"u"⟩ ⟨1500, 120⟩ ⟨false, false, false⟩ true).2
      "VIFPortProfile8021Qbg" rfl).2⟩

/-- C5: `ensure_vlan` is idempotent: when the derived interface
`vlan<vlan_id>` already exists, the call executes exactly the MTU
re-application and returns the derived name; and the MTU command runs on
every call regardless of the existence probe. -/
theorem ensure_vlan_idempotent_mtu_reapplied
    (vlan_num : Nat) (bridge_interface : String)
    (mac_address : Option String) (mtu : Option Nat) :
    LinuxNet.ensure_vlan vlan_num bridge_interface mac_address mtu true
      = ([LinuxNet._set_device_mtu ("vlan" ++ toString vlan_num) mtu],
         "vlan" ++ toString vlan_num) ∧
    ∀ dexists, LinuxNet._set_device_mtu ("vlan" ++ toString vlan_num) mtu
        ∈ (LinuxNet.ensure_vlan vlan_num bridge_interface mac_address mtu
            dexists).1 := by
  refine ⟨by simp [LinuxNet.ensure_vlan], ?_⟩
  intro dexists
  cases dexists <;> simp [LinuxNet.ensure_vlan]

/-- C10: `ensure_vlan` issues the MTU-set command even when the `mtu`
argument is omitted (`None`): the command runs on every call and its mtu
operand is the stringified `None`, rather than the step being skipped. -/
theorem ensure_vlan_mtu_none_passthrough
    (vlan_num : Nat) (bridge_interface : String)
    (mac_address : Option String) (dexists : Bool) :
    LinuxNet._set_device_mtu ("vlan" ++ toString vlan_num) none
        ∈ (LinuxNet.ensure_vlan vlan_num bridge_interface mac_address none
            dexists).1 ∧
    LinuxNet._set_device_mtu ("vlan" ++ toString vlan_num) none
      = LinuxNet.Ev.exec (run ["ip", "link", "set", "vlan" ++ toString vlan_num,
                               "mtu", "None"]) := by
  refine ⟨?_, rfl⟩
  cases dexists <;> simp [LinuxNet.ensure_vlan]

/-- C7: for every VIF id, both derived veth names are at most 14 characters
long, the first starting with `qvb` and the second with `qvo`. -/
theorem ovs_hybrid_veth_pair_name_bound (vif : OvsHybrid.VIF) :
    (OvsHybrid.get_veth_pair_names vif).1.length ≤ 14 ∧
    (OvsHybrid.get_veth_pair_names vif).2.length ≤ 14 ∧
    (OvsHybrid.get_veth_pair_names vif).1.take 3 = "qvb" ∧
    (OvsHybrid.get_veth_pair_names vif).2.take 3 = "qvo" := by
  simp only [OvsHybrid.get_veth_pair_names, OvsHybrid.NIC_NAME_LEN]
  refine ⟨?_, ?_, ?_, ?_⟩
  · rw [String.take_eq]
    exact List.length_take_le 14 _
  · rw [String.take_eq]
    exact List.length_take_le 14 _
  · rw [String.take_eq, String.take_eq]
    show String.mk ((("qvb" ++ vif.id).data.take 14).take 3) = "qvb"
    rw [List.take_take]
    show String.mk ((['q', 'v', 'b'] ++ vif.id.data).take 3) = "qvb"
    rfl
  · rw [String.take_eq, String.take_eq]
    show String.mk ((("qvo" ++ vif.id).data.take 14).take 3) = "qvo"
    rw [List.take_take]
    show String.mk ((['q', 'v', 'o'] ++ vif.id.data).take 3) = "qvo"
    rfl

/-- C1 counterexample: a VIF whose per-VIF bridge `qbr1` does not exist but
whose OVS-side veth device already exists.  `plug` handles the
missing-bridge case (and succeeds) without ever bringing the bridge up:
the `ip link set qbr1 up` command is not part of the missing-bridge block. -/
theorem ovs_hybrid_plug_bridge_up_cex :
    (OvsHybrid.plug
        ⟨"1", "fa:16:3e:00:00:01", "qbr1", some (.openVSwitch "if1"), "br-int"⟩
        ⟨"u"⟩ ⟨1500, 120⟩ ⟨false, true, false⟩).2 = .ok () ∧
    OvsHybrid.Ev.exec (run ["ip", "link", "set", "qbr1", "up"])
      ∉ (OvsHybrid.plug
          ⟨"1", "fa:16:3e:00:00:01", "qbr1", some (.openVSwitch "if1"), "br-int"⟩
          ⟨"u"⟩ ⟨1500, 120⟩ ⟨false, true, false⟩).1 := by
  constructor
  · rfl
  · decide

/-- C1 amended: when the per-VIF bridge does not exist, `plug` creates it,
disables STP and multicast snooping, and disables IPv6 on it when the host
supports doing so; but bringing the bridge up is part of the
missing-veth-pair block, so in that call the bridge is brought up if and
only if the OVS-side veth device is also missing. -/
theorem ovs_hybrid_plug_missing_bridge_amended
    (vif : OvsHybrid.VIF) (ii : OvsHybrid.InstanceInfo)
    (cfg : OvsHybrid.Config) (h : OvsHybrid.HostProbe) (iface_id : String)
    (hpp : vif.port_profile = some (.openVSwitch iface_id))
    (hb : h.bridgeDeviceExists = false) :
    (OvsHybrid.plug vif ii cfg h).2 = .ok () ∧
    (OvsHybrid.plug vif ii cfg h).1
      = OvsHybrid.bridgeCreateEvs vif.bridge_name h.disv6PathExists
        ++ (if h.v2DeviceExists then []
            else OvsHybrid.vethCreateEvs vif ii cfg
                   (OvsHybrid.get_veth_pair_names vif).1
                   (OvsHybrid.get_veth_pair_names vif).2 iface_id) ∧
    (OvsHybrid.Ev.exec (run ["ip", "link", "set", vif.bridge_name, "up"])
        ∈ (OvsHybrid.plug vif ii cfg h).1 ↔ h.v2DeviceExists = false) := by
  refine ⟨?_, ?_, ?_⟩
  · simp [OvsHybrid.plug, hpp]
  · simp [OvsHybrid.plug, hpp, hb]
  · cases hv : h.v2DeviceExists <;> cases hd : h.disv6PathExists <;>
      simp [OvsHybrid.plug, OvsHybrid.bridgeCreateEvs,
            OvsHybrid.vethCreateEvs, hpp, hb, hv, hd, run]

/-- Witness for the amended C1 at a concrete input: bridge missing, veth
missing, IPv6 supported. -/
theorem ovs_hybrid_plug_missing_bridge_amended_witness :
    (OvsHybrid.plug
        ⟨"2", "fa:16:3e:00:00:02", "qbr2", some (.openVSwitch "if2"), "br-int"⟩
        ⟨"u"⟩ ⟨1500, 120⟩ ⟨false, false, true⟩).2 = .ok () ∧
    (OvsHybrid.plug
        ⟨"2", "fa:16:3e:00:00:02", "qbr2", some (.openVSwitch "if2"), "br-int"⟩
        ⟨"u"⟩ ⟨1500, 120⟩ ⟨false, false, true⟩).1
      = OvsHybrid.bridgeCreateEvs "qbr2" true
        ++ OvsHybrid.vethCreateEvs
             ⟨"2", "fa:16:3e:00:00:02", "qbr2", some (.openVSwitch "if2"), "br-int"⟩
             ⟨"u"⟩ ⟨1500, 120⟩
             (OvsHybrid.get_veth_pair_names
               ⟨"2", "fa:16:3e:00:00:02", "qbr2", some (.openVSwitch "if2"), "br-int"⟩).1
             (OvsHybrid.get_veth_pair_names
               ⟨"2", "fa:16:3e:00:00:02", "qbr2", some (.openVSwitch "if2"), "br-int"⟩).2
             "if2" ∧
    (OvsHybrid.Ev.exec (run ["ip", "link", "set", "qbr2", "up"])
        ∈ (OvsHybrid.plug
            ⟨"2", "fa:16:3e:00:00:02", "qbr2", some (.openVSwitch "if2"), "br-int"⟩
            ⟨"u"⟩ ⟨1500, 120⟩ ⟨false, false, true⟩).1 ↔ (false : Bool) = false) :=
  ovs_hybrid_plug_missing_bridge_amended
    ⟨"2", "fa:16:3e:00:00:02", "qbr2", some (.openVSwitch "if2"), "br-int"⟩
    ⟨"u"⟩ ⟨1500, 120⟩ ⟨false, false, true⟩ "if2" rfl rfl

/-- C6: with a non-empty interface, a failing `brctl addif` is tolerated
only when its stderr is empty or exactly the already-enslaved message for
this interface and bridge.  Any other stderr raises: the call returns the
`Failed to add interface` error and its trace stops right after the attach
command, before any route or address migration step; when the stderr is
tolerated, the migration proceeds (the route enumeration runs). -/
theorem ensure_bridge_addif_error_tolerance
    (bridge interface : String) (bridgeExists : Bool) (addifErr : String)
    (routeOut addrOut : String) (mgr : Option LinuxNet.IptablesMgr)
    (gateway filtering : Bool) (hiface : interface ≠ "") :
    ((addifErr ≠ "" ∧ addifErr ≠ LinuxNet.enslaveMsg interface bridge) →
      LinuxNet.ensure_bridge bridge interface bridgeExists addifErr routeOut
          addrOut mgr gateway filtering
        = (LinuxNet.bridgeCreateEvs bridge bridgeExists
            ++ [LinuxNet.Ev.exec (run ["brctl", "addif", bridge, interface])],
           .error (.failedToAddInterface addifErr))) ∧
    ((addifErr = "" ∨ addifErr = LinuxNet.enslaveMsg interface bridge) →
      LinuxNet.Ev.exec (run ["ip", "route", "show", "dev", interface])
        ∈ (LinuxNet.ensure_bridge bridge interface bridgeExists addifErr
            routeOut addrOut mgr gateway filtering).1) := by
  constructor
  · intro hraise
    simp only [LinuxNet.ensure_bridge, LinuxNet.attachEvs, if_neg hiface,
               if_pos hraise]
  · intro htol
    have hcond : ¬(addifErr ≠ "" ∧ addifErr ≠ LinuxNet.enslaveMsg interface bridge) := by
      rcases htol with h | h <;> simp [h]
    cases filtering <;> cases mgr <;>
      simp [LinuxNet.ensure_bridge, LinuxNet.attachEvs, hiface, hcond]

/-- Witness for C6 at concrete inputs: a rejected stderr aborts after the
attach command, and the exact already-enslaved message is tolerated. -/
theorem ensure_bridge_addif_error_tolerance_witness :
    LinuxNet.ensure_bridge "br0" "eth0" true "some other failure\n" "" ""
        none true false
      = (LinuxNet.bridgeCreateEvs "br0" true
          ++ [LinuxNet.Ev.exec (run ["brctl", "addif", "br0", "eth0"])],
         .error (.failedToAddInterface "some other failure\n")) ∧
    LinuxNet.Ev.exec (run ["ip", "route", "show", "dev", "eth0"])
      ∈ (LinuxNet.ensure_bridge "br0" "eth0" true
          (LinuxNet.enslaveMsg "eth0" "br0") "" "" none true false).1 := by
  refine ⟨(ensure_bridge_addif_error_tolerance "br0" "eth0" true
            "some other failure\n" "" "" none true false (by decide)).1
            ⟨by decide, by decide⟩,
          (ensure_bridge_addif_error_tolerance "br0" "eth0" true
            (LinuxNet.enslaveMsg "eth0" "br0") "" "" none true false
            (by decide)).2 (Or.inr rfl)⟩

/-- C9: `ensure_bridge` with `filtering=true` requires a prior
`configure(iptables_mgr)`: with the module-global manager still `None`,
every call that gets through the attach stage fails with the attribute
error at the filtering step, after having executed every bridge-creation
and attach/migration command (the full trace of the same call with
filtering disabled) — not before mutating the host. -/
theorem ensure_bridge_filtering_requires_configure
    (bridge interface : String) (bridgeExists : Bool) (addifErr : String)
    (routeOut addrOut : String) (gateway : Bool)
    (hok : (LinuxNet.ensure_bridge bridge interface bridgeExists addifErr
              routeOut addrOut none gateway false).2 = .ok ()) :
    LinuxNet.ensure_bridge bridge interface bridgeExists addifErr routeOut
        addrOut none gateway true
      = ((LinuxNet.ensure_bridge bridge interface bridgeExists addifErr
            routeOut addrOut none gateway false).1,
         .error .noneManagerAttributeError) ∧
    (bridgeExists = false →
      LinuxNet.Ev.exec (run ["brctl", "addbr", bridge])
        ∈ (LinuxNet.ensure_bridge bridge interface bridgeExists addifErr
            routeOut addrOut none gateway true).1) := by
  cases hA : (if interface = "" then (([], Except.ok ()) :
      List LinuxNet.Ev × Except LinuxNet.Err Unit)
    else LinuxNet.attachEvs bridge interface addifErr routeOut addrOut).2 with
  | error e =>
    rw [LinuxNet.ensure_bridge] at hok
    rw [hA] at hok
    simp at hok
  | ok _ =>
    constructor
    · rw [LinuxNet.ensure_bridge, LinuxNet.ensure_bridge, hA]
      simp
    · intro hbe
      rw [LinuxNet.ensure_bridge, hA]
      simp [LinuxNet.bridgeCreateEvs, hbe]

/-- Witness for C9 at a concrete input: a fresh bridge and interface, no
prior `configure`; the call fails at the filtering stage with the full
pre-filtering trace already executed. -/
theorem ensure_bridge_filtering_requires_configure_witness :
    LinuxNet.ensure_bridge "br0" "eth0" false "" "" "" none true true
      = ((LinuxNet.ensure_bridge "br0" "eth0" false "" "" "" none true
           false).1,
         .error .noneManagerAttributeError) ∧
    ((false : Bool) = false →
      LinuxNet.Ev.exec (run ["brctl", "addbr", "br0"])
        ∈ (LinuxNet.ensure_bridge "br0" "eth0" false "" "" "" none true
            true).1) :=
  ensure_bridge_filtering_requires_configure "br0" "eth0" false "" "" ""
    true rfl

/-- Running a concatenated trace is running its parts in sequence. -/
theorem applyTrace_append (iface bridge : String) (st : LinuxNet.NetState)
    (t1 t2 : List LinuxNet.Ev) :
    LinuxNet.applyTrace iface bridge st (t1 ++ t2)
      = LinuxNet.applyTrace iface bridge
          (LinuxNet.applyTrace iface bridge st t1) t2 :=
  List.foldl_append _ _ _ _

/-- Removing the head candidate from a list contained in `a :: R` leaves a
list contained in `R`. -/
theorem filter_ne_subset {α : Type} [DecidableEq α] (l : List α) (a : α)
    (R : List α) (h : l ⊆ a :: R) :
    l.filter (fun x => x ≠ a) ⊆ R := by
  intro x hx
  rw [List.mem_filter] at hx
  rcases List.mem_cons.mp (h hx.1) with h1 | h1
  · exact absurd h1 (by simpa using hx.2)
  · exact h1

/-- Dropping the trailing `["dev", device]` pair recovers the params. -/
theorem dropLast_pair (p : List String) (x y : String) :
    ((p ++ [x, y]).dropLast).dropLast = p := by
  have h : p ++ [x, y] = (p ++ [x]) ++ [y] := by simp
  rw [h, List.dropLast_concat, List.dropLast_concat]

/-- The last element of `params ++ ["dev", device]` is the device. -/
theorem getLastD_pair (p : List String) (x y : String) :
    (p ++ [x, y]).getLastD "" = y := by
  have h : p ++ [x, y] = (p ++ [x]) ++ [y] := by simp
  rw [h]
  exact List.getLastD_concat _ _ _

/-- Effect of one `ip addr del <params> dev <dev>` command. -/
theorem applyEv_addrDel (iface bridge : String) (st : LinuxNet.NetState)
    (params : List String) (dev : String) :
    LinuxNet.applyEv iface bridge st
        (LinuxNet.Ev.exec (run (LinuxNet._ip_bridge_cmd "del" params dev)))
      = (if dev = iface then
          { st with ifaceAddrs := st.ifaceAddrs.filter (fun p => p ≠ params) }
         else if dev = bridge then
          { st with bridgeAddrs := st.bridgeAddrs.filter (fun p => p ≠ params) }
         else st) := by
  show (let d := (params ++ ["dev", dev]).getLastD ""
        let ps := ((params ++ ["dev", dev]).dropLast).dropLast
        if d = iface then
          { st with ifaceAddrs := st.ifaceAddrs.filter (fun p => p ≠ ps) }
        else if d = bridge then
          { st with bridgeAddrs := st.bridgeAddrs.filter (fun p => p ≠ ps) }
        else st) = _
  simp only [getLastD_pair, dropLast_pair]

/-- Effect of one `ip addr add <params> dev <dev>` command. -/
theorem applyEv_addrAdd (iface bridge : String) (st : LinuxNet.NetState)
    (params : List String) (dev : String) :
    LinuxNet.applyEv iface bridge st
        (LinuxNet.Ev.exec (run (LinuxNet._ip_bridge_cmd "add" params dev)))
      = (if dev = iface then
          { st with ifaceAddrs := st.ifaceAddrs ++ [params] }
         else if dev = bridge then
          { st with bridgeAddrs := st.bridgeAddrs ++ [params] }
         else st) := by
  show (let d := (params ++ ["dev", dev]).getLastD ""
        let ps := ((params ++ ["dev", dev]).dropLast).dropLast
        if d = iface then
          { st with ifaceAddrs := st.ifaceAddrs ++ [ps] }
        else if d = bridge then
          { st with bridgeAddrs := st.bridgeAddrs ++ [ps] }
        else st) = _
  simp only [getLastD_pair, dropLast_pair]

/-- Running the recorded route deletions empties both devices' route sets
whenever every carried route is among the recorded ones. -/
theorem applyTrace_routeDelEvs (iface bridge : String)
    (R : List (List String)) :
    ∀ st : LinuxNet.NetState, st.ifaceRoutes ⊆ R → st.bridgeRoutes ⊆ R →
    LinuxNet.applyTrace iface bridge st (LinuxNet.routeDelEvs R)
      = { st with ifaceRoutes := [], bridgeRoutes := [] } := by
  induction R with
  | nil =>
    intro st h1 h2
    obtain ⟨ia, ba, ir, br⟩ := st
    have e1 : ir = [] := List.subset_nil.mp h1
    have e2 : br = [] := List.subset_nil.mp h2
    subst e1; subst e2
    rfl
  | cons f R ih =>
    intro st h1 h2
    show LinuxNet.applyTrace iface bridge st
        (LinuxNet.Ev.exec (run (["ip", "route", "del"] ++ f))
          :: LinuxNet.routeDelEvs R) = _
    have step : LinuxNet.applyTrace iface bridge st
        (LinuxNet.Ev.exec (run (["ip", "route", "del"] ++ f))
          :: LinuxNet.routeDelEvs R)
        = LinuxNet.applyTrace iface bridge
            { st with ifaceRoutes := st.ifaceRoutes.filter (fun r => r ≠ f),
                      bridgeRoutes := st.bridgeRoutes.filter (fun r => r ≠ f) }
            (LinuxNet.routeDelEvs R) := rfl
    rw [step, ih _ (filter_ne_subset _ _ _ h1) (filter_ne_subset _ _ _ h2)]

/-- Running the address-migration commands moves every parameter slice from
the interface onto the bridge: afterwards the interface carries no
addresses and the bridge has gained exactly the migrated slices, provided
every migrated line names the interface as its device and the interface's
addresses are among the migrated ones. -/
theorem applyTrace_addrMoveEvs (iface bridge : String)
    (hne : bridge ≠ iface) (A : List (List String)) :
    ∀ st : LinuxNet.NetState,
    (∀ f ∈ A, LinuxNet.deviceOf f = iface) →
    st.ifaceAddrs ⊆ A.map LinuxNet.paramsOf →
    LinuxNet.applyTrace iface bridge st (LinuxNet.addrMoveEvs bridge A)
      = { st with ifaceAddrs := [],
                  bridgeAddrs := st.bridgeAddrs ++ A.map LinuxNet.paramsOf } := by
  induction A with
  | nil =>
    intro st _ hsub
    obtain ⟨ia, ba, ir, br⟩ := st
    have e1 : ia = [] := List.subset_nil.mp (by simpa using hsub)
    subst e1
    simp [LinuxNet.addrMoveEvs, LinuxNet.applyTrace]
  | cons f A ih =>
    intro st hdev hsub
    rw [LinuxNet.addrMoveEvs]
    rw [show LinuxNet.applyTrace iface bridge st
        (LinuxNet.Ev.exec
            (run (LinuxNet._ip_bridge_cmd "del" (LinuxNet.paramsOf f)
                    (LinuxNet.deviceOf f)))
          :: LinuxNet.Ev.exec
              (run (LinuxNet._ip_bridge_cmd "add" (LinuxNet.paramsOf f) bridge))
          :: LinuxNet.addrMoveEvs bridge A)
        = LinuxNet.applyTrace iface bridge
            (LinuxNet.applyEv iface bridge
              (LinuxNet.applyEv iface bridge st
                (LinuxNet.Ev.exec
                  (run (LinuxNet._ip_bridge_cmd "del" (LinuxNet.paramsOf f)
                         (LinuxNet.deviceOf f)))))
              (LinuxNet.Ev.exec
                (run (LinuxNet._ip_bridge_cmd "add" (LinuxNet.paramsOf f)
                       bridge))))
            (LinuxNet.addrMoveEvs bridge A) from rfl]
    rw [applyEv_addrDel, applyEv_addrAdd]
    rw [if_pos (hdev f (List.mem_cons_self f A)), if_neg hne, if_pos rfl]
    rw [ih _ (fun g hg => hdev g (List.mem_cons_of_mem f hg))
          (by
            simp only [List.map_cons] at hsub ⊢
            exact filter_ne_subset _ _ _ hsub)]
    simp

/-- Running the route re-additions after the migration binds every recorded
route to the bridge: the interface carries no address, so the device whose
address covers each route's gateway is the bridge. -/
theorem applyTrace_routeAddEvs (iface bridge : String)
    (R : List (List String)) :
    ∀ st : LinuxNet.NetState, st.ifaceAddrs = [] →
    (∀ f ∈ R, LinuxNet.coversGw st.bridgeAddrs (LinuxNet.viaGateway f) = true) →
    LinuxNet.applyTrace iface bridge st (LinuxNet.routeAddEvs R)
      = { st with bridgeRoutes := st.bridgeRoutes ++ R } := by
  induction R with
  | nil =>
    intro st _ _
    simp [LinuxNet.routeAddEvs, LinuxNet.applyTrace]
  | cons f R ih =>
    intro st hiA hcov
    show LinuxNet.applyTrace iface bridge st
        (LinuxNet.Ev.exec (run (["ip", "route", "add"] ++ f))
          :: LinuxNet.routeAddEvs R) = _
    have step : LinuxNet.applyEv iface bridge st
        (LinuxNet.Ev.exec (run (["ip", "route", "add"] ++ f)))
        = if LinuxNet.coversGw st.ifaceAddrs (LinuxNet.viaGateway f) then
            { st with ifaceRoutes := st.ifaceRoutes ++ [f] }
          else if LinuxNet.coversGw st.bridgeAddrs (LinuxNet.viaGateway f) then
            { st with bridgeRoutes := st.bridgeRoutes ++ [f] }
          else st := rfl
    have hno : LinuxNet.coversGw st.ifaceAddrs (LinuxNet.viaGateway f) = false := by
      rw [hiA]; rfl
    rw [show LinuxNet.applyTrace iface bridge st
        (LinuxNet.Ev.exec (run (["ip", "route", "add"] ++ f))
          :: LinuxNet.routeAddEvs R)
        = LinuxNet.applyTrace iface bridge
            (LinuxNet.applyEv iface bridge st
              (LinuxNet.Ev.exec (run (["ip", "route", "add"] ++ f))))
            (LinuxNet.routeAddEvs R) from rfl]
    rw [step, hno]
    simp only [Bool.false_eq_true, if_false,
               if_pos (hcov f (List.mem_cons_self f R))]
    rw [ih { st with bridgeRoutes := st.bridgeRoutes ++ [f] } hiA
          (fun g hg => hcov g (List.mem_cons_of_mem f hg))]
    simp

/-- The bridge-creation commands do not touch addresses or routes. -/
theorem applyTrace_bridgeCreateEvs (iface bridge b : String) (be : Bool)
    (st : LinuxNet.NetState) :
    LinuxNet.applyTrace iface bridge st (LinuxNet.bridgeCreateEvs b be) = st := by
  cases be <;> rfl

/-- The iptables-manager operations do not touch addresses or routes. -/
theorem applyTrace_filteringEvs (iface bridge b : String)
    (m : LinuxNet.IptablesMgr) (gw : Bool) (st : LinuxNet.NetState) :
    LinuxNet.applyTrace iface bridge st (LinuxNet.filteringEvs b m gw) = st := by
  cases gw with
  | false => rfl
  | true =>
    show LinuxNet.applyTrace iface bridge st
        ((m.gateway_rules b).map (fun r => LinuxNet.Ev.addRule r.1 r.2)
          ++ [LinuxNet.Ev.applyRules]) = st
    rw [applyTrace_append]
    have h : ∀ (rs : List (String × String)) (s : LinuxNet.NetState),
        LinuxNet.applyTrace iface bridge s
          (rs.map (fun r => LinuxNet.Ev.addRule r.1 r.2)) = s := by
      intro rs
      induction rs with
      | nil => intro s; rfl
      | cons r rs ih => intro s; exact ih s
    rw [h]
    rfl

/-- C3: for an interface carrying global-scope addresses and via-qualified
routes, `ensure_bridge` (with a tolerated attach) enumerates and deletes
the via-routes from the interface before moving any address, moves each
global-scope address from the interface to the bridge, and re-adds every
recorded route only after the address moves — the returned trace has
exactly that shape — so that on success the bridge, not the interface,
carries the addresses and the routes, and the interface carries neither.
Hypotheses: the interface argument is non-empty and distinct from the
bridge, every enumerated address line names the interface as its device,
every recorded route's gateway is covered by one of the migrated address
slices, and the filtering collaborator is configured when filtering is
requested. -/
theorem ensure_bridge_route_address_migration
    (bridge interface : String) (bridgeExists : Bool)
    (routeOut addrOut : String) (mgr : Option LinuxNet.IptablesMgr)
    (gateway filtering : Bool)
    (hiface : interface ≠ "") (hne : bridge ≠ interface)
    (hdev : ∀ f ∈ LinuxNet.inetLinesOf addrOut,
      LinuxNet.deviceOf f = interface)
    (hcov : ∀ f ∈ LinuxNet.oldRoutesOf routeOut,
      LinuxNet.coversGw
        ((LinuxNet.inetLinesOf addrOut).map LinuxNet.paramsOf)
        (LinuxNet.viaGateway f) = true)
    (hmgr : filtering = true → mgr.isSome = true) :
    (LinuxNet.ensure_bridge bridge interface bridgeExists "" routeOut addrOut
        mgr gateway filtering).2 = .ok () ∧
    (LinuxNet.ensure_bridge bridge interface bridgeExists "" routeOut addrOut
        mgr gateway filtering).1
      = LinuxNet.bridgeCreateEvs bridge bridgeExists
        ++ [LinuxNet.Ev.exec (run ["brctl", "addif", bridge, interface])]
        ++ [LinuxNet.Ev.exec (run ["ip", "link", "set", interface, "up"]),
            LinuxNet.Ev.exec (run ["ip", "route", "show", "dev", interface])]
        ++ LinuxNet.routeDelEvs (LinuxNet.oldRoutesOf routeOut)
        ++ [LinuxNet.Ev.exec (run ["ip", "addr", "show", "dev", interface,
                                   "scope", "global"])]
        ++ LinuxNet.addrMoveEvs bridge (LinuxNet.inetLinesOf addrOut)
        ++ LinuxNet.routeAddEvs (LinuxNet.oldRoutesOf routeOut)
        ++ (if filtering then
              mgr.elim [] (fun m => LinuxNet.filteringEvs bridge m gateway)
            else ([] : List LinuxNet.Ev)) ∧
    LinuxNet.applyTrace interface bridge
        ⟨(LinuxNet.inetLinesOf addrOut).map LinuxNet.paramsOf, [],
          LinuxNet.oldRoutesOf routeOut, []⟩
        (LinuxNet.ensure_bridge bridge interface bridgeExists "" routeOut
          addrOut mgr gateway filtering).1
      = ⟨[], (LinuxNet.inetLinesOf addrOut).map LinuxNet.paramsOf, [],
          LinuxNet.oldRoutesOf routeOut⟩ := by
  have hattach : LinuxNet.attachEvs bridge interface "" routeOut addrOut
      = ([LinuxNet.Ev.exec (run ["brctl", "addif", bridge, interface])]
          ++ [LinuxNet.Ev.exec (run ["ip", "link", "set", interface, "up"]),
              LinuxNet.Ev.exec (run ["ip", "route", "show", "dev", interface])]
          ++ LinuxNet.routeDelEvs (LinuxNet.oldRoutesOf routeOut)
          ++ [LinuxNet.Ev.exec (run ["ip", "addr", "show", "dev", interface,
                                     "scope", "global"])]
          ++ LinuxNet.addrMoveEvs bridge (LinuxNet.inetLinesOf addrOut)
          ++ LinuxNet.routeAddEvs (LinuxNet.oldRoutesOf routeOut),
         Except.ok ()) := by
    simp only [LinuxNet.attachEvs]
    rw [if_neg (by simp)]
  have e1 := applyTrace_bridgeCreateEvs interface bridge bridge bridgeExists
    ⟨(LinuxNet.inetLinesOf addrOut).map LinuxNet.paramsOf, [],
      LinuxNet.oldRoutesOf routeOut, []⟩
  have e2 : LinuxNet.applyTrace interface bridge
      ⟨(LinuxNet.inetLinesOf addrOut).map LinuxNet.paramsOf, [],
        LinuxNet.oldRoutesOf routeOut, []⟩
      [LinuxNet.Ev.exec (run ["brctl", "addif", bridge, interface])]
      = ⟨(LinuxNet.inetLinesOf addrOut).map LinuxNet.paramsOf, [],
          LinuxNet.oldRoutesOf routeOut, []⟩ := rfl
  have e3 : LinuxNet.applyTrace interface bridge
      ⟨(LinuxNet.inetLinesOf addrOut).map LinuxNet.paramsOf, [],
        LinuxNet.oldRoutesOf routeOut, []⟩
      [LinuxNet.Ev.exec (run ["ip", "link", "set", interface, "up"]),
       LinuxNet.Ev.exec (run ["ip", "route", "show", "dev", interface])]
      = ⟨(LinuxNet.inetLinesOf addrOut).map LinuxNet.paramsOf, [],
          LinuxNet.oldRoutesOf routeOut, []⟩ := rfl
  have e4 : LinuxNet.applyTrace interface bridge
      ⟨(LinuxNet.inetLinesOf addrOut).map LinuxNet.paramsOf, [],
        LinuxNet.oldRoutesOf routeOut, []⟩
      (LinuxNet.routeDelEvs (LinuxNet.oldRoutesOf routeOut))
      = ⟨(LinuxNet.inetLinesOf addrOut).map LinuxNet.paramsOf, [], [], []⟩ :=
    applyTrace_routeDelEvs interface bridge (LinuxNet.oldRoutesOf routeOut)
      ⟨(LinuxNet.inetLinesOf addrOut).map LinuxNet.paramsOf, [],
        LinuxNet.oldRoutesOf routeOut, []⟩
      (List.Subset.refl _) (List.nil_subset _)
  have e5 : LinuxNet.applyTrace interface bridge
      ⟨(LinuxNet.inetLinesOf addrOut).map LinuxNet.paramsOf, [], [], []⟩
      [LinuxNet.Ev.exec (run ["ip", "addr", "show", "dev", interface,
                              "scope", "global"])]
      = ⟨(LinuxNet.inetLinesOf addrOut).map LinuxNet.paramsOf, [], [], []⟩ := rfl
  have e6 : LinuxNet.applyTrace interface bridge
      ⟨(LinuxNet.inetLinesOf addrOut).map LinuxNet.paramsOf, [], [], []⟩
      (LinuxNet.addrMoveEvs bridge (LinuxNet.inetLinesOf addrOut))
      = ⟨[], (LinuxNet.inetLinesOf addrOut).map LinuxNet.paramsOf, [], []⟩ :=
    applyTrace_addrMoveEvs interface bridge hne (LinuxNet.inetLinesOf addrOut)
      ⟨(LinuxNet.inetLinesOf addrOut).map LinuxNet.paramsOf, [], [], []⟩
      hdev (List.Subset.refl _)
  have e7 : LinuxNet.applyTrace interface bridge
      ⟨[], (LinuxNet.inetLinesOf addrOut).map LinuxNet.paramsOf, [], []⟩
      (LinuxNet.routeAddEvs (LinuxNet.oldRoutesOf routeOut))
      = ⟨[], (LinuxNet.inetLinesOf addrOut).map LinuxNet.paramsOf, [],
          LinuxNet.oldRoutesOf routeOut⟩ :=
    applyTrace_routeAddEvs interface bridge (LinuxNet.oldRoutesOf routeOut)
      ⟨[], (LinuxNet.inetLinesOf addrOut).map LinuxNet.paramsOf, [], []⟩
      rfl hcov
  cases hf : filtering with
  | true =>
    obtain ⟨m, hm⟩ := Option.isSome_iff_exists.mp (hmgr hf)
    subst hm
    have hE : LinuxNet.ensure_bridge bridge interface bridgeExists "" routeOut
        addrOut (some m) gateway true
        = (LinuxNet.bridgeCreateEvs bridge bridgeExists
            ++ ([LinuxNet.Ev.exec (run ["brctl", "addif", bridge, interface])]
              ++ [LinuxNet.Ev.exec (run ["ip", "link", "set", interface, "up"]),
                  LinuxNet.Ev.exec (run ["ip", "route", "show", "dev",
                                         interface])]
              ++ LinuxNet.routeDelEvs (LinuxNet.oldRoutesOf routeOut)
              ++ [LinuxNet.Ev.exec (run ["ip", "addr", "show", "dev",
                                         interface, "scope", "global"])]
              ++ LinuxNet.addrMoveEvs bridge (LinuxNet.inetLinesOf addrOut)
              ++ LinuxNet.routeAddEvs (LinuxNet.oldRoutesOf routeOut)
              ++ LinuxNet.filteringEvs bridge m gateway),
           Except.ok ()) := by
      simp only [LinuxNet.ensure_bridge, if_neg hiface, hattach]
      simp [List.append_assoc]
    refine ⟨by rw [hE], by rw [hE]; simp [List.append_assoc], ?_⟩
    rw [hE]
    simp only [applyTrace_append]
    rw [e1, e2, e3, e4, e5, e6, e7,
        applyTrace_filteringEvs interface bridge bridge m gateway _]
  | false =>
    have hE : LinuxNet.ensure_bridge bridge interface bridgeExists "" routeOut
        addrOut mgr gateway false
        = (LinuxNet.bridgeCreateEvs bridge bridgeExists
            ++ ([LinuxNet.Ev.exec (run ["brctl", "addif", bridge, interface])]
              ++ [LinuxNet.Ev.exec (run ["ip", "link", "set", interface, "up"]),
                  LinuxNet.Ev.exec (run ["ip", "route", "show", "dev",
                                         interface])]
              ++ LinuxNet.routeDelEvs (LinuxNet.oldRoutesOf routeOut)
              ++ [LinuxNet.Ev.exec (run ["ip", "addr", "show", "dev",
                                         interface, "scope", "global"])]
              ++ LinuxNet.addrMoveEvs bridge (LinuxNet.inetLinesOf addrOut)
              ++ LinuxNet.routeAddEvs (LinuxNet.oldRoutesOf routeOut)),
           Except.ok ()) := by
      simp only [LinuxNet.ensure_bridge, if_neg hiface, hattach]
      simp [List.append_assoc]
    refine ⟨by rw [hE], by rw [hE]; simp [List.append_assoc], ?_⟩
    rw [hE]
    simp only [applyTrace_append]
    rw [e1, e2, e3, e4, e5, e6, e7]

/-- Witness for C3 at the specification's concrete example: interface
`eth0` carrying `10.0.0.5/24` and the route `10.0.1.0/24 via 10.0.0.1`;
after `ensure_bridge` attaches it to `br100`, the bridge carries the
address and the route and the interface carries neither. -/
theorem ensure_bridge_route_address_migration_witness :
    (LinuxNet.ensure_bridge "br100" "eth0" false ""
        "10.0.1.0/24 via 10.0.0.1"
        "    inet 10.0.0.5/24 brd 10.0.0.255 scope global eth0"
        none true false).2 = .ok () ∧
    LinuxNet.applyTrace "eth0" "br100"
        ⟨(LinuxNet.inetLinesOf
            "    inet 10.0.0.5/24 brd 10.0.0.255 scope global eth0").map
            LinuxNet.paramsOf, [],
          LinuxNet.oldRoutesOf "10.0.1.0/24 via 10.0.0.1", []⟩
        (LinuxNet.ensure_bridge "br100" "eth0" false ""
          "10.0.1.0/24 via 10.0.0.1"
          "    inet 10.0.0.5/24 brd 10.0.0.255 scope global eth0"
          none true false).1
      = ⟨[], (LinuxNet.inetLinesOf
            "    inet 10.0.0.5/24 brd 10.0.0.255 scope global eth0").map
            LinuxNet.paramsOf, [],
          LinuxNet.oldRoutesOf "10.0.1.0/24 via 10.0.0.1"⟩ := by
  have h := ensure_bridge_route_address_migration "br100" "eth0" false
    "10.0.1.0/24 via 10.0.0.1"
    "    inet 10.0.0.5/24 brd 10.0.0.255 scope global eth0"
    none true false (by decide) (by decide) (by decide) (by decide)
    (by decide)
  exact ⟨h.1, h.2.2⟩
